import Mathlib

/-
Verification of the RAMS registration system's receipt ledger, form
field-locking, plugin pricing rules, and schema migration, against a shallow
embedding of the Python source.

Embedding conventions:
  * Money amounts are integer cents, embedded as `Int` (matching the
    `Integer` SQL columns).
  * Timestamps (`UTCDateTime` columns and `datetime` values) are embedded as
    `Nat` instants ordered by `≤`; nullable timestamp columns are
    `Option Nat`, and a Python `datetime` object is always truthy, so the
    truthiness of such a column is `Option.isSome`.
  * Nullable/empty text columns are `Option String`; Python truthiness of
    such a value (falsy for both `None` and `""`) is `strTruthy` below.
  * Configuration constants (`uber.config.c`) are fields of a `Config`
    record, so every theorem is proved for all configurations.
  * Calls to the Stripe API are embedded as explicit oracle functions passed
    to the operations that perform them.
-/

namespace Rams

/-- Python truthiness of a nullable text column: `None` and `""` are falsy,
any other string is truthy. -/
def strTruthy : Option String → Bool
  | none => false
  | some s => s ≠ ""

/-- Python truthiness of a nullable integer column: `None` and `0` are falsy. -/
def intOptTruthy : Option Int → Bool
  | none => false
  | some v => v ≠ 0

/-- Configuration constants from `uber.config.c` used by the embedded code.
Each field is left abstract (an arbitrary code) so theorems quantify over
every configuration. -/
structure Config where
  stripe : Nat
  pending_status : Nat
  refunded_status : Nat
  deferred_status : Nat
  staff_badge : Nat
  contractor_badge : Nat
  badge_type_prices : Bool
  under_13 : Nat
  at_the_con : Bool
  attendee_badge : Nat
  friday : Nat
  saturday : Nat
  sunday : Nat
  staff_ribbon : Nat
  volunteer_ribbon : Nat
  not_paid : Nat
  paid_by_group : Nat
  need_not_pay : Nat
  max_dealers : Int
  deriving DecidableEq

/-- A row of `receipt_item` (`uber/models/commerce.py`, class `ReceiptItem`):
the columns the receipt computations read. -/
structure ReceiptItem where
  amount : Int
  count : Int
  added : Nat
  closed : Option Nat
  deriving DecidableEq

/-- A row of `receipt_transaction` (`uber/models/commerce.py`, class
`ReceiptTransaction`): the columns the receipt computations read. -/
structure ReceiptTransaction where
  intent_id : Option String
  charge_id : Option String
  refund_id : Option String
  method : Nat
  amount : Int
  refunded : Option Int
  added : Nat
  cancelled : Option Nat
  deriving DecidableEq

/-- A `ModelReceipt` with its backref collections `receipt_items` and
`receipt_txns` (`uber/models/commerce.py`). -/
structure ModelReceipt where
  receipt_items : List ReceiptItem
  receipt_txns : List ReceiptTransaction
  deriving DecidableEq

namespace ReceiptItem

/-- `ReceiptItem.total_amount`: `return self.amount * self.count`. -/
def total_amount (i : ReceiptItem) : Int :=
  i.amount * i.count

end ReceiptItem

namespace ReceiptTransaction

/-- `ReceiptTransaction.receipt_share`: `min(self.amount, sum([item.total_amount
for item in self.receipt.receipt_items if item.added <= self.added]))`.
The transaction's receipt is passed explicitly (it is `self.receipt`). -/
def receipt_share (r : ModelReceipt) (t : ReceiptTransaction) : Int :=
  min t.amount
    (((r.receipt_items.filter (fun i => decide (i.added ≤ t.added))).map
      ReceiptItem.total_amount).sum)

/-- `ReceiptTransaction.is_pending_charge`: `self.intent_id and not
self.charge_id and not self.cancelled`. -/
def is_pending_charge (t : ReceiptTransaction) : Bool :=
  strTruthy t.intent_id && !strTruthy t.charge_id && t.cancelled.isNone

/-- `ReceiptTransaction.stripe_id`: `return self.charge_id or self.intent_id`
(Python `or` yields the first operand when it is truthy). -/
def stripe_id (t : ReceiptTransaction) : Option String :=
  if strTruthy t.charge_id then t.charge_id else t.intent_id

/-- `ReceiptTransaction.update_amount_refunded`: returns unchanged when
`intent_id` is falsy, otherwise sets `refunded` to the sum of the amounts in
`stripe.Refund.list(payment_intent=self.intent_id)`. The Stripe refund
listing is the oracle `refunds`, mapping an intent id to the listed refund
amounts. -/
def update_amount_refunded (refunds : String → List Int)
    (t : ReceiptTransaction) : ReceiptTransaction :=
  if !strTruthy t.intent_id then t
  else { t with refunded := some ((refunds (t.intent_id.getD "")).foldl (· + ·) 0) }

end ReceiptTransaction

/-- A Stripe `PaymentIntent` as read by `check_paid_from_stripe`: the ids of
the charges in `intent.charges.data`. -/
structure StripeIntent where
  charges : List String
  deriving DecidableEq

namespace ReceiptTransaction

/-- `ReceiptTransaction.get_stripe_intent`: returns `None` without calling
Stripe when `stripe_id` is falsy, otherwise retrieves `self.intent_id`
through the oracle `retrieve` (which returns `none` when the call raises). -/
def get_stripe_intent (retrieve : String → Option StripeIntent)
    (t : ReceiptTransaction) : Option StripeIntent :=
  if !strTruthy (stripe_id t) then none
  else retrieve (t.intent_id.getD "")

/-- `ReceiptTransaction.check_paid_from_stripe`. The result records the
requested `Charge.mark_paid_from_intent_id(intent_id, charge_id)` call, if
any, and whether the Stripe API was contacted at all (via
`get_stripe_intent`). -/
def check_paid_from_stripe (retrieve : String → Option StripeIntent)
    (t : ReceiptTransaction) : Option (String × String) × Bool :=
  if strTruthy t.charge_id then (none, false)
  else
    let contacted := strTruthy (stripe_id t)
    match get_stripe_intent retrieve t with
    | some intent =>
      match intent.charges with
      | c0 :: _ => (some (t.intent_id.getD "", c0), contacted)
      | [] => (none, contacted)
    | none => (none, contacted)

end ReceiptTransaction

/-- The descending-added comparison used to embed
`sorted(..., key=lambda t: t.added, reverse=True)`: a stable sort with this
comparison puts later-added transactions first, keeping original order on
ties, exactly like Python's stable `sorted` with `reverse=True`. -/
def addedDesc (a b : ReceiptTransaction) : Bool :=
  decide (b.added ≤ a.added)

namespace ModelReceipt

/-- `ModelReceipt.pending_txns`: `[txn for txn in self.receipt_txns if
txn.is_pending_charge]`. -/
def pending_txns (r : ModelReceipt) : List ReceiptTransaction :=
  r.receipt_txns.filter ReceiptTransaction.is_pending_charge

/-- `ModelReceipt.pending_total`: `sum([txn.amount for txn in
self.receipt_txns if txn.is_pending_charge])`. -/
def pending_total (r : ModelReceipt) : Int :=
  ((r.receipt_txns.filter ReceiptTransaction.is_pending_charge).map
    (fun t => t.amount)).sum

/-- The filter of the Python (hybrid) `ModelReceipt.payment_total`:
`not txn.cancelled and (txn.charge_id or txn.method != c.STRIPE and
txn.amount > 0)`. -/
def payment_counted (cfg : Config) (t : ReceiptTransaction) : Bool :=
  t.cancelled.isNone &&
    (strTruthy t.charge_id || (t.method ≠ cfg.stripe && decide (0 < t.amount)))

/-- Python `ModelReceipt.payment_total`: `sum([txn.receipt_share for txn in
self.receipt_txns if not txn.cancelled and (txn.charge_id or txn.method !=
c.STRIPE and txn.amount > 0)])`. -/
def payment_total (cfg : Config) (r : ModelReceipt) : Int :=
  ((r.receipt_txns.filter (payment_counted cfg)).map
    (ReceiptTransaction.receipt_share r)).sum

/-- The row filter of the SQL expression form of `payment_total`:
`cancelled == None` and (`charge_id != None` or (`method != c.STRIPE` and
`amount > 0`)); the join `receipt_id == cls.id` is the membership of the
transaction in the receipt's collection. -/
def payment_counted_sql (cfg : Config) (t : ReceiptTransaction) : Bool :=
  t.cancelled.isNone &&
    (t.charge_id.isSome || (t.method ≠ cfg.stripe && decide (0 < t.amount)))

/-- The SQL expression form of `ModelReceipt.payment_total`:
`select([func.sum(ReceiptTransaction.amount)])` over the rows of this
receipt passing `payment_counted_sql`. -/
def payment_total_sql (cfg : Config) (r : ModelReceipt) : Int :=
  ((r.receipt_txns.filter (payment_counted_sql cfg)).map
    (fun t => t.amount)).sum

/-- Python `ModelReceipt.refund_total`: `sum([txn.amount for txn in
self.receipt_txns if txn.amount < 0]) * -1`. -/
def refund_total (r : ModelReceipt) : Int :=
  (((r.receipt_txns.filter (fun t => decide (t.amount < 0))).map
    (fun t => t.amount)).sum) * (-1)

/-- `ModelReceipt.item_total`: `sum([(item.amount * item.count) for item in
self.receipt_items])`. -/
def item_total (r : ModelReceipt) : Int :=
  (r.receipt_items.map (fun i => i.amount * i.count)).sum

/-- `ModelReceipt.txn_total`: `self.payment_total - self.refund_total`. -/
def txn_total (cfg : Config) (r : ModelReceipt) : Int :=
  payment_total cfg r - refund_total r

/-- `ModelReceipt.current_receipt_amount`: `self.item_total - self.txn_total`. -/
def current_receipt_amount (cfg : Config) (r : ModelReceipt) : Int :=
  item_total r - txn_total cfg r

/-- `ModelReceipt.current_amount_owed`: `max(0, self.current_receipt_amount)`. -/
def current_amount_owed (cfg : Config) (r : ModelReceipt) : Int :=
  max 0 (current_receipt_amount cfg r)

/-- `ModelReceipt.last_incomplete_txn`: `sorted(self.pending_txns, key=lambda
t: t.added, reverse=True)[0] if self.pending_txns else None`. Python's
`sorted` with `reverse=True` is a stable sort into descending key order,
embedded as a stable merge sort with `le a b ↔ b.added ≤ a.added`. -/
def last_incomplete_txn (r : ModelReceipt) : Option ReceiptTransaction :=
  if (pending_txns r).isEmpty then none
  else ((pending_txns r).mergeSort addedDesc).head?

end ModelReceipt

/-- The attendee attributes read by the non-admin field-locking methods in
`uber/forms/attendee.py`. `has_shifts` and `active_receipt` are the Python
truthiness of `attendee.shifts` and `attendee.active_receipt`. -/
structure FormAttendee where
  is_new : Bool
  badge_status : Nat
  is_valid : Bool
  placeholder : Bool
  badge_type : Nat
  has_shifts : Bool
  active_receipt : Bool
  deriving DecidableEq

namespace PersonalInfo

/-- `PersonalInfo.get_non_admin_locked_fields` (`uber/forms/attendee.py`).
`fields` is `list(self._fields.keys())`, the form's complete field key list. -/
def get_non_admin_locked_fields (cfg : Config) (fields : List String)
    (a : FormAttendee) : List String :=
  if a.is_new || a.badge_status == cfg.pending_status then []
  else if !a.is_valid || a.badge_status == cfg.refunded_status then fields
  else if a.placeholder then []
  else ["first_name", "last_name", "legal_name", "same_legal_name"]

end PersonalInfo

namespace BadgeExtras

/-- `BadgeExtras.get_non_admin_locked_fields` (`uber/forms/attendee.py`).
`fields` is `list(self._fields.keys())`. -/
def get_non_admin_locked_fields (cfg : Config) (fields : List String)
    (a : FormAttendee) : List String :=
  if a.is_new then []
  else if !a.is_valid || a.badge_status == cfg.refunded_status then fields
  else if a.active_receipt || a.badge_status == cfg.deferred_status then
    ["badge_type", "amount_extra", "extra_donation"]
  else if !cfg.badge_type_prices then ["badge_type"]
  else []

end BadgeExtras

namespace OtherInfo

/-- `OtherInfo.get_non_admin_locked_fields` (`uber/forms/attendee.py`).
`fields` is `list(self._fields.keys())`. -/
def get_non_admin_locked_fields (cfg : Config) (fields : List String)
    (a : FormAttendee) : List String :=
  let locked := if !a.placeholder then ["placeholder"] else []
  if a.is_new then locked
  else if !a.is_valid || a.badge_status == cfg.refunded_status then fields
  else if a.badge_type == cfg.staff_badge || a.badge_type == cfg.contractor_badge
      || a.has_shifts then locked ++ ["staffing"]
  else locked

end OtherInfo

/-- A column added or dropped by the alembic migration, with its type name
and nullability. -/
structure SchemaColumn where
  name : String
  ctype : String
  nullable : Bool
  deriving DecidableEq

/-- A database schema: the tables in order, each with its columns in order. -/
abbrev Schema := List (String × List SchemaColumn)

namespace Migration1ad8716bfc74

/-- Semantics of alembic's `op.add_column(table, column)`: append the column
to the named table's column list. -/
def add_column (tbl : String) (col : SchemaColumn) (s : Schema) : Schema :=
  s.map (fun p => if p.1 = tbl then (p.1, p.2 ++ [col]) else p)

/-- Semantics of alembic's `op.drop_column(table, name)`: remove the columns
with the given name from the named table. -/
def drop_column (tbl : String) (name : String) (s : Schema) : Schema :=
  s.map (fun p => if p.1 = tbl then (p.1, p.2.filter (fun c => c.name ≠ name)) else p)

/-- The `start_time` column added by the migration:
`sa.Column('start_time', residue.UTCDateTime(), nullable=True)`. -/
def start_time_col : SchemaColumn :=
  { name := "start_time", ctype := "UTCDateTime", nullable := true }

/-- The `end_time` column added by the migration:
`sa.Column('end_time', residue.UTCDateTime(), nullable=True)`. -/
def end_time_col : SchemaColumn :=
  { name := "end_time", ctype := "UTCDateTime", nullable := true }

/-- `upgrade()` of revision 1ad8716bfc74: adds `start_time` then `end_time`
to `access_group`. -/
def upgrade (s : Schema) : Schema :=
  add_column "access_group" end_time_col
    (add_column "access_group" start_time_col s)

/-- `downgrade()` of revision 1ad8716bfc74: drops `start_time` then
`end_time` from `access_group`. -/
def downgrade (s : Schema) : Schema :=
  drop_column "access_group" "end_time"
    (drop_column "access_group" "start_time" s)

end Migration1ad8716bfc74

namespace Mff

/-- The attendee attributes read by the `mff_rams_plugin` `Attendee` mixin.
`age_group_has_val` is `'val' in self.age_group_conf`; `age_group_val` and
`age_group_discount` are `self.age_group_conf['val']` and
`self.age_group_conf['discount']`; `ribbon` is `self.ribbon_ints`. -/
structure Attendee where
  age_group_has_val : Bool
  age_group_val : Nat
  age_group_discount : Int
  badge_type : Nat
  ribbon : List Nat
  staffing : Bool
  overridden_price : Option Int
  paid : Nat
  deriving DecidableEq

/-- The group attributes read by `Group.dealer_max_badges`; `tables` is the
group's (possibly fractional) table count. -/
structure Group where
  tables : ℚ
  deriving DecidableEq

/-- Modelled from the spec: `uber.utils.remove_opt` is outside the excerpt;
it removes the given option code from a multi-choice list, leaving the rest
in order. -/
def remove_opt (opts : List Nat) (opt : Nat) : List Nat :=
  opts.filter (fun o => o ≠ opt)

/-- Modelled from the spec: `uber.utils.add_opt` is outside the excerpt; it
appends the given option code to a multi-choice list when not yet present. -/
def add_opt (opts : List Nat) (opt : Nat) : List Nat :=
  if opt ∈ opts then opts else opts ++ [opt]

namespace Attendee

/-- `Attendee.age_discount` (`mff_rams_plugin/models.py`). In the
under-13-at-the-con branch the local `discount` is assigned only for the
badge types `ATTENDEE_BADGE`, `FRIDAY`, `SUNDAY`, and `SATURDAY`; for every
other badge type the subsequent reads of `discount` raise
`UnboundLocalError`, embedded as `none`. -/
def age_discount (cfg : Config) (a : Attendee) : Option Int :=
  if a.age_group_has_val && a.age_group_val == cfg.under_13 && cfg.at_the_con then
    let d : Option Int :=
      if a.badge_type == cfg.attendee_badge then some 33
      else if a.badge_type == cfg.friday || a.badge_type == cfg.sunday then some 13
      else if a.badge_type == cfg.saturday then some 20
      else none
    match d with
    | none => none
    | some discount =>
      if a.age_group_discount = 0 ∨ a.age_group_discount < discount then
        some (-discount)
      else some (-a.age_group_discount)
  else some (-a.age_group_discount)

/-- `Attendee._staffing_badge_and_ribbon_adjustments`
(`mff_rams_plugin/models.py`). The second `if` reads
`self.ribbon_intsm` — an attribute that does not exist — so unless the
short-circuiting left operand `self.badge_type == c.STAFF_BADGE` is true the
method raises `AttributeError`, embedded as `none`. -/
def staffing_badge_and_ribbon_adjustments (cfg : Config) (a : Attendee) :
    Option Attendee :=
  let a1 :=
    if a.badge_type == cfg.staff_badge || decide (cfg.staff_ribbon ∈ a.ribbon) then
      { a with ribbon := remove_opt a.ribbon cfg.volunteer_ribbon }
    else if a.staffing && a.badge_type != cfg.staff_badge
        && !decide (cfg.staff_ribbon ∈ a.ribbon)
        && !decide (cfg.volunteer_ribbon ∈ a.ribbon) then
      { a with ribbon := add_opt a.ribbon cfg.volunteer_ribbon }
    else a
  if a1.badge_type == cfg.staff_badge then
    let a2 := { a1 with staffing := true }
    if !intOptTruthy a2.overridden_price
        && (a2.paid == cfg.not_paid || a2.paid == cfg.paid_by_group) then
      some { a2 with paid := cfg.need_not_pay }
    else some a2
  else none

end Attendee

namespace Group

/-- `Group.dealer_max_badges` (`mff_rams_plugin/models.py`):
`return c.MAX_DEALERS or min(math.ceil(self.tables) * 3, 12)`. -/
def dealer_max_badges (cfg : Config) (g : Group) : Int :=
  if cfg.max_dealers ≠ 0 then cfg.max_dealers
  else min (⌈g.tables⌉ * 3) 12

end Group

end Mff

end Rams

namespace Rams

/-- Sum of a list of nonpositive integers is nonpositive. -/
theorem list_sum_nonpos {l : List Int} (h : ∀ x ∈ l, x ≤ 0) : l.sum ≤ 0 := by
  induction l with
  | nil => simp
  | cons x xs ih =>
    have hx := h x (by simp)
    have hxs := ih (fun y hy => h y (by simp [hy]))
    simp only [List.sum_cons]
    linarith

/-- C1: for every configuration and receipt, `item_total` is the sum of
`amount * count` over the receipt items, `refund_total` is `-1` times the sum
of the amounts of the negative-amount transactions and is non-negative,
`txn_total = payment_total - refund_total`, `current_receipt_amount =
item_total - txn_total`, and `current_amount_owed = max 0
current_receipt_amount`, hence never negative. -/
theorem receipt_running_balance_spec (cfg : Config) (r : ModelReceipt) :
    ModelReceipt.item_total r = (r.receipt_items.map (fun i => i.amount * i.count)).sum ∧
    ModelReceipt.refund_total r
      = -((r.receipt_txns.filter (fun t => decide (t.amount < 0))).map
          (fun t => t.amount)).sum ∧
    0 ≤ ModelReceipt.refund_total r ∧
    ModelReceipt.txn_total cfg r
      = ModelReceipt.payment_total cfg r - ModelReceipt.refund_total r ∧
    ModelReceipt.current_receipt_amount cfg r
      = ModelReceipt.item_total r - ModelReceipt.txn_total cfg r ∧
    ModelReceipt.current_amount_owed cfg r
      = max 0 (ModelReceipt.current_receipt_amount cfg r) ∧
    0 ≤ ModelReceipt.current_amount_owed cfg r := by
  have hsum : ((r.receipt_txns.filter (fun t => decide (t.amount < 0))).map
      (fun t => t.amount)).sum ≤ 0 := by
    apply list_sum_nonpos
    intro x hx
    simp only [List.mem_map, List.mem_filter, decide_eq_true_eq] at hx
    obtain ⟨t, ⟨_, ht⟩, rfl⟩ := hx
    exact le_of_lt ht
  refine ⟨rfl, ?_, ?_, rfl, rfl, rfl, le_max_left 0 _⟩
  · simp [ModelReceipt.refund_total, mul_neg_one]
  · simp only [ModelReceipt.refund_total, mul_neg_one]
    exact neg_nonneg.mpr hsum

/-- C3: `receipt_share` is the minimum of the transaction's amount and the
total of `amount * count` over the receipt items added at or before the
transaction; in particular it never exceeds the transaction's amount. -/
theorem receipt_share_spec (r : ModelReceipt) (t : ReceiptTransaction) :
    ReceiptTransaction.receipt_share r t
      = min t.amount
          (((r.receipt_items.filter (fun i => decide (i.added ≤ t.added))).map
            (fun i => i.amount * i.count)).sum) ∧
    ReceiptTransaction.receipt_share r t ≤ t.amount :=
  ⟨rfl, min_le_left _ _⟩

/-- When `charge_id` is not the empty string, the Python truthiness test and
the SQL `IS NOT NULL` test agree, so the two row filters of `payment_total`
coincide on the transaction. -/
theorem payment_counted_eq_sql (cfg : Config) (t : ReceiptTransaction)
    (h : t.charge_id ≠ some "") :
    ModelReceipt.payment_counted cfg t = ModelReceipt.payment_counted_sql cfg t := by
  unfold ModelReceipt.payment_counted ModelReceipt.payment_counted_sql
  cases hc : t.charge_id with
  | none => simp [strTruthy]
  | some s =>
    have hs : s ≠ "" := by
      intro hs
      exact h (by rw [hc, hs])
    simp [strTruthy, hs]

/-- The sums of the Python and SQL forms of `payment_total` agree over any
transaction list whose members avoid empty-string charge ids and whose
counted members have `receipt_share` equal to their full amount. -/
theorem payment_sum_agree_aux (cfg : Config) (r : ModelReceipt)
    (l : List ReceiptTransaction)
    (h1 : ∀ t ∈ l, t.charge_id ≠ some "")
    (h2 : ∀ t ∈ l, ModelReceipt.payment_counted cfg t = true →
      ReceiptTransaction.receipt_share r t = t.amount) :
    ((l.filter (ModelReceipt.payment_counted cfg)).map
      (ReceiptTransaction.receipt_share r)).sum
      = ((l.filter (ModelReceipt.payment_counted_sql cfg)).map
        (fun t => t.amount)).sum := by
  induction l with
  | nil => simp
  | cons t tl ih =>
    have hc := payment_counted_eq_sql cfg t (h1 t (by simp))
    have ihs := ih (fun u hu => h1 u (by simp [hu]))
      (fun u hu h => h2 u (by simp [hu]) h)
    by_cases hp : ModelReceipt.payment_counted cfg t = true
    · rw [List.filter_cons_of_pos hp, List.filter_cons_of_pos (hc ▸ hp)]
      simp only [List.map_cons, List.sum_cons]
      rw [h2 t (by simp) hp, ihs]
    · rw [List.filter_cons_of_neg hp, List.filter_cons_of_neg (hc ▸ hp)]
      exact ihs

/-- Sample configuration used by the concrete witnesses: all codes distinct,
at-the-con, `MAX_DEALERS` unset. -/
def sampleConfig : Config :=
  { stripe := 1, pending_status := 10, refunded_status := 11,
    deferred_status := 12, staff_badge := 20, contractor_badge := 21,
    badge_type_prices := true, under_13 := 30, at_the_con := true,
    attendee_badge := 40, friday := 41, saturday := 42, sunday := 43,
    staff_ribbon := 50, volunteer_ribbon := 51, not_paid := 60,
    paid_by_group := 61, need_not_pay := 62, max_dealers := 0 }

/-- A completed Stripe payment of 100 cents. -/
def samplePaidTxn : ReceiptTransaction :=
  { intent_id := some "pi_1", charge_id := some "ch_1", refund_id := none,
    method := 1, amount := 100, refunded := none, added := 5, cancelled := none }

/-- A receipt holding `samplePaidTxn` but no receipt items, so the
transaction's `receipt_share` is 0 while its raw amount is 100. -/
def sampleItemlessReceipt : ModelReceipt :=
  { receipt_items := [], receipt_txns := [samplePaidTxn] }

/-- C2, counterexample: on a receipt with a paid 100-cent transaction and no
receipt items the Python `payment_total` is 0 (the transaction's
`receipt_share` is capped by the item total 0) while the SQL expression sums
the raw amount 100, so the two embeddings of `payment_total` disagree. -/
theorem payment_total_hybrid_sql_mismatch :
    ModelReceipt.payment_total sampleConfig sampleItemlessReceipt
      ≠ ModelReceipt.payment_total_sql sampleConfig sampleItemlessReceipt := by
  decide

/-- C2, amended: the Python `payment_total` (summing `receipt_share`) and its
SQL expression form (summing raw amounts) agree on every receipt in which no
transaction's `charge_id` is the empty string and every transaction counted
by the Python filter has `receipt_share` equal to its full amount; in
general the two can differ. -/
theorem payment_total_hybrid_sql_agree (cfg : Config) (r : ModelReceipt)
    (h1 : ∀ t ∈ r.receipt_txns, t.charge_id ≠ some "")
    (h2 : ∀ t ∈ r.receipt_txns, ModelReceipt.payment_counted cfg t = true →
      ReceiptTransaction.receipt_share r t = t.amount) :
    ModelReceipt.payment_total cfg r = ModelReceipt.payment_total_sql cfg r :=
  payment_sum_agree_aux cfg r r.receipt_txns h1 h2

/-- A receipt whose single 100-cent item (added before the transaction)
fully covers `samplePaidTxn`. -/
def sampleCoveredReceipt : ModelReceipt :=
  { receipt_items := [{ amount := 100, count := 1, added := 0, closed := none }],
    receipt_txns := [samplePaidTxn] }

/-- C2 witness: on `sampleCoveredReceipt` the hypotheses of
`payment_total_hybrid_sql_agree` hold and the two `payment_total` forms both
evaluate to 100. -/
theorem payment_total_hybrid_sql_agree_witness :
    samplePaidTxn.charge_id ≠ some "" ∧
    ReceiptTransaction.receipt_share sampleCoveredReceipt samplePaidTxn
      = samplePaidTxn.amount ∧
    ModelReceipt.payment_total sampleConfig sampleCoveredReceipt
      = ModelReceipt.payment_total_sql sampleConfig sampleCoveredReceipt :=
  ⟨by decide, by decide,
    payment_total_hybrid_sql_agree sampleConfig sampleCoveredReceipt
      (by decide) (by decide)⟩

/-- `addedDesc` is transitive. -/
theorem addedDesc_trans (a b c : ReceiptTransaction)
    (hab : addedDesc a b = true) (hbc : addedDesc b c = true) :
    addedDesc a c = true := by
  simp only [addedDesc, decide_eq_true_eq] at *
  omega

/-- `addedDesc` is total. -/
theorem addedDesc_total (a b : ReceiptTransaction) :
    (addedDesc a b || addedDesc b a) = true := by
  simp only [addedDesc, Bool.or_eq_true, decide_eq_true_eq]
  omega

/-- C4: a transaction is a pending charge exactly when its `intent_id` is
truthy (non-`None`, non-empty), its `charge_id` is falsy, and it is not
cancelled; `pending_txns` is exactly the pending members of the receipt's
transactions; `pending_total` is the sum of their amounts; and
`last_incomplete_txn` is `none` exactly when there is no pending
transaction, and otherwise a pending transaction of the receipt whose
`added` timestamp is at least that of every pending transaction. -/
theorem pending_charges_spec (r : ModelReceipt) :
    (∀ t : ReceiptTransaction, ReceiptTransaction.is_pending_charge t = true ↔
      (strTruthy t.intent_id = true ∧ strTruthy t.charge_id = false ∧
        t.cancelled = none)) ∧
    (∀ t : ReceiptTransaction, t ∈ ModelReceipt.pending_txns r ↔
      (t ∈ r.receipt_txns ∧ ReceiptTransaction.is_pending_charge t = true)) ∧
    ModelReceipt.pending_total r
      = ((ModelReceipt.pending_txns r).map (fun t => t.amount)).sum ∧
    (ModelReceipt.last_incomplete_txn r = none ↔
      ModelReceipt.pending_txns r = []) ∧
    (∀ t : ReceiptTransaction, ModelReceipt.last_incomplete_txn r = some t →
      t ∈ ModelReceipt.pending_txns r ∧
      ∀ u ∈ ModelReceipt.pending_txns r, u.added ≤ t.added) := by
  refine ⟨?_, ?_, rfl, ?_, ?_⟩
  · intro t
    simp [ReceiptTransaction.is_pending_charge, Bool.and_eq_true,
      Bool.not_eq_true', Option.isNone_iff_eq_none, and_assoc]
  · intro t
    exact List.mem_filter
  · unfold ModelReceipt.last_incomplete_txn
    by_cases he : (ModelReceipt.pending_txns r).isEmpty
    · simp [he, List.isEmpty_iff.mp he]
    · have he' : (ModelReceipt.pending_txns r).isEmpty = false := by
        simpa using he
      rw [he']
      simp only [Bool.false_eq_true, if_false]
      constructor
      · intro h
        rw [List.head?_eq_none_iff] at h
        have hp := List.mergeSort_perm (ModelReceipt.pending_txns r) addedDesc
        rw [h] at hp
        exact hp.symm.eq_nil
      · intro h
        exact absurd (List.isEmpty_iff.mpr h) he
  · intro t h
    unfold ModelReceipt.last_incomplete_txn at h
    by_cases he : (ModelReceipt.pending_txns r).isEmpty
    · simp [he] at h
    · have he' : (ModelReceipt.pending_txns r).isEmpty = false := by
        simpa using he
      rw [he'] at h
      simp only [Bool.false_eq_true, if_false] at h
      obtain ⟨rest, hms⟩ :
          ∃ rest, (ModelReceipt.pending_txns r).mergeSort addedDesc
            = t :: rest := by
        cases hm : (ModelReceipt.pending_txns r).mergeSort addedDesc with
        | nil => rw [hm] at h; simp at h
        | cons x xs =>
          rw [hm] at h
          simp only [List.head?_cons, Option.some.injEq] at h
          exact ⟨xs, by rw [h]⟩
      have hmem : t ∈ ModelReceipt.pending_txns r := by
        have : t ∈ (ModelReceipt.pending_txns r).mergeSort addedDesc := by
          rw [hms]; simp
        exact List.mem_mergeSort.mp this
      refine ⟨hmem, ?_⟩
      intro u hu
      have hsorted := List.sorted_mergeSort addedDesc_trans addedDesc_total
        (ModelReceipt.pending_txns r)
      rw [hms, List.pairwise_cons] at hsorted
      have hu' : u ∈ t :: rest := by
        rw [← hms]
        exact List.mem_mergeSort.mpr hu
      rcases List.mem_cons.mp hu' with h1 | h1
      · rw [h1]
      · have := hsorted.1 u h1
        simpa [addedDesc] using this

/-- Two pending Stripe charges, added at instants 3 and 9. -/
def samplePendingTxn1 : ReceiptTransaction :=
  { intent_id := some "pi_a", charge_id := none, refund_id := none,
    method := 1, amount := 50, refunded := none, added := 3, cancelled := none }

/-- The later of the two sample pending charges. -/
def samplePendingTxn2 : ReceiptTransaction :=
  { intent_id := some "pi_b", charge_id := none, refund_id := none,
    method := 1, amount := 70, refunded := none, added := 9, cancelled := none }

/-- A receipt holding the two sample pending charges. -/
def samplePendingReceipt : ModelReceipt :=
  { receipt_items := [], receipt_txns := [samplePendingTxn1, samplePendingTxn2] }

/-- C4 witness: on `samplePendingReceipt`, `last_incomplete_txn` is the
transaction added at instant 9, and it is among the pending transactions. -/
theorem pending_charges_spec_witness :
    ModelReceipt.last_incomplete_txn samplePendingReceipt
      = some samplePendingTxn2 ∧
    samplePendingTxn2 ∈ ModelReceipt.pending_txns samplePendingReceipt := by
  have h : ModelReceipt.last_incomplete_txn samplePendingReceipt
      = some samplePendingTxn2 := by
    simp [ModelReceipt.last_incomplete_txn, ModelReceipt.pending_txns,
      List.mergeSort, addedDesc, ReceiptTransaction.is_pending_charge,
      samplePendingReceipt, samplePendingTxn1, samplePendingTxn2, strTruthy]
  exact ⟨h, ((pending_charges_spec samplePendingReceipt).2.2.2.2
    samplePendingTxn2 h).1⟩

/-- C5: with a falsy `intent_id`, `update_amount_refunded` returns the
transaction unchanged; with a truthy `intent_id` it sets `refunded` to the
sum of the refund amounts the processor reports for that intent and changes
no other field (the result is the record update of `refunded` alone); and
with a truthy `charge_id`, `check_paid_from_stripe` requests no mark-paid
action and does not contact the processor. -/
theorem stripe_sync_frame_spec (refunds : String → List Int)
    (retrieve : String → Option StripeIntent) (t : ReceiptTransaction) :
    (strTruthy t.intent_id = false →
      ReceiptTransaction.update_amount_refunded refunds t = t) ∧
    (strTruthy t.intent_id = true →
      ReceiptTransaction.update_amount_refunded refunds t
        = { t with
            refunded := some ((refunds (t.intent_id.getD "")).foldl (· + ·) 0) }) ∧
    (strTruthy t.charge_id = true →
      ReceiptTransaction.check_paid_from_stripe retrieve t = (none, false)) := by
  refine ⟨?_, ?_, ?_⟩
  · intro h
    simp [ReceiptTransaction.update_amount_refunded, h]
  · intro h
    simp [ReceiptTransaction.update_amount_refunded, h]
  · intro h
    simp [ReceiptTransaction.check_paid_from_stripe, h]

/-- A transaction with no payment intent. -/
def sampleIntentlessTxn : ReceiptTransaction :=
  { intent_id := none, charge_id := none, refund_id := none,
    method := 2, amount := 25, refunded := none, added := 1, cancelled := none }

/-- The Stripe refund listing used by the C5 witness: every intent has two
refunds, of 10 and 5 cents. -/
def sampleRefunds : String → List Int :=
  fun _ => [10, 5]

/-- The Stripe intent retrieval used by the C5 witness. -/
def sampleRetrieve : String → Option StripeIntent :=
  fun _ => some { charges := ["ch_1"] }

/-- C5 witness: the intentless transaction is returned unchanged, the paid
transaction gets `refunded := 15` with every other field intact, and
`check_paid_from_stripe` on the already-charged transaction does nothing and
contacts nobody. -/
theorem stripe_sync_frame_spec_witness :
    strTruthy sampleIntentlessTxn.intent_id = false ∧
    ReceiptTransaction.update_amount_refunded sampleRefunds sampleIntentlessTxn
      = sampleIntentlessTxn ∧
    strTruthy samplePaidTxn.intent_id = true ∧
    ReceiptTransaction.update_amount_refunded sampleRefunds samplePaidTxn
      = { samplePaidTxn with refunded := some 15 } ∧
    strTruthy samplePaidTxn.charge_id = true ∧
    ReceiptTransaction.check_paid_from_stripe sampleRetrieve samplePaidTxn
      = (none, false) :=
  ⟨by decide,
    (stripe_sync_frame_spec sampleRefunds sampleRetrieve sampleIntentlessTxn).1
      (by decide),
    by decide,
    by simpa using
      (stripe_sync_frame_spec sampleRefunds sampleRetrieve samplePaidTxn).2.1
        (by decide),
    by decide,
    (stripe_sync_frame_spec sampleRefunds sampleRetrieve samplePaidTxn).2.2
      (by decide)⟩

/-- C6: for a non-new attendee (for `PersonalInfo`, also not pending) that is
invalid or refunded, each of the three forms locks its complete field list;
and a new attendee has no locked fields on `PersonalInfo` and `BadgeExtras`. -/
theorem locked_fields_spec (cfg : Config) (fields : List String)
    (a : FormAttendee) :
    (a.is_new = false → a.badge_status ≠ cfg.pending_status →
      (a.is_valid = false ∨ a.badge_status = cfg.refunded_status) →
      PersonalInfo.get_non_admin_locked_fields cfg fields a = fields) ∧
    (a.is_new = false →
      (a.is_valid = false ∨ a.badge_status = cfg.refunded_status) →
      BadgeExtras.get_non_admin_locked_fields cfg fields a = fields) ∧
    (a.is_new = false →
      (a.is_valid = false ∨ a.badge_status = cfg.refunded_status) →
      OtherInfo.get_non_admin_locked_fields cfg fields a = fields) ∧
    (a.is_new = true →
      PersonalInfo.get_non_admin_locked_fields cfg fields a = [] ∧
      BadgeExtras.get_non_admin_locked_fields cfg fields a = []) := by
  refine ⟨?_, ?_, ?_, ?_⟩
  · intro hnew hpend hinv
    rcases hinv with h | h
    · simp [PersonalInfo.get_non_admin_locked_fields, hnew, hpend, h]
    · have hp2 : cfg.refunded_status ≠ cfg.pending_status := by
        rw [← h]
        exact hpend
      simp [PersonalInfo.get_non_admin_locked_fields, hnew, h, hp2]
  · intro hnew hinv
    rcases hinv with h | h <;>
      simp [BadgeExtras.get_non_admin_locked_fields, hnew, h]
  · intro hnew hinv
    rcases hinv with h | h <;>
      simp [OtherInfo.get_non_admin_locked_fields, hnew, h]
  · intro hnew
    constructor <;>
      simp [PersonalInfo.get_non_admin_locked_fields,
        BadgeExtras.get_non_admin_locked_fields, hnew]

/-- The complete field key list of a form, for the C6 witness. -/
def sampleFields : List String :=
  ["first_name", "last_name", "legal_name", "same_legal_name", "email"]

/-- A non-new, invalid, refunded attendee. -/
def sampleRefundedAttendee : FormAttendee :=
  { is_new := false, badge_status := 11, is_valid := false, placeholder := false,
    badge_type := 40, has_shifts := false, active_receipt := false }

/-- A brand-new attendee. -/
def sampleNewAttendee : FormAttendee :=
  { is_new := true, badge_status := 0, is_valid := true, placeholder := false,
    badge_type := 40, has_shifts := false, active_receipt := false }

/-- C6 witness: the refunded attendee gets the complete field list locked on
all three forms, and the new attendee gets no locked fields on
`PersonalInfo` and `BadgeExtras`. -/
theorem locked_fields_spec_witness :
    sampleRefundedAttendee.is_new = false ∧
    sampleRefundedAttendee.badge_status ≠ sampleConfig.pending_status ∧
    PersonalInfo.get_non_admin_locked_fields sampleConfig sampleFields
      sampleRefundedAttendee = sampleFields ∧
    BadgeExtras.get_non_admin_locked_fields sampleConfig sampleFields
      sampleRefundedAttendee = sampleFields ∧
    OtherInfo.get_non_admin_locked_fields sampleConfig sampleFields
      sampleRefundedAttendee = sampleFields ∧
    PersonalInfo.get_non_admin_locked_fields sampleConfig sampleFields
      sampleNewAttendee = [] ∧
    BadgeExtras.get_non_admin_locked_fields sampleConfig sampleFields
      sampleNewAttendee = [] :=
  ⟨by decide, by decide,
    (locked_fields_spec sampleConfig sampleFields sampleRefundedAttendee).1
      (by decide) (by decide) (Or.inl (by decide)),
    (locked_fields_spec sampleConfig sampleFields sampleRefundedAttendee).2.1
      (by decide) (Or.inl (by decide)),
    (locked_fields_spec sampleConfig sampleFields sampleRefundedAttendee).2.2.1
      (by decide) (Or.inl (by decide)),
    ((locked_fields_spec sampleConfig sampleFields sampleNewAttendee).2.2.2
      (by decide)).1,
    ((locked_fields_spec sampleConfig sampleFields sampleNewAttendee).2.2.2
      (by decide)).2⟩

/-- C7: the migration's `upgrade` changes only the `access_group` table, by
appending the nullable `UTCDateTime` columns `start_time` and `end_time`,
and on any schema whose `access_group` has neither column name yet,
`downgrade` after `upgrade` restores the schema exactly. -/
theorem access_group_migration_roundtrip (s : Schema)
    (h : ∀ p ∈ s, p.1 = "access_group" →
      ∀ c ∈ p.2, c.name ≠ "start_time" ∧ c.name ≠ "end_time") :
    Migration1ad8716bfc74.downgrade (Migration1ad8716bfc74.upgrade s) = s ∧
    Migration1ad8716bfc74.upgrade s = s.map (fun p =>
      if p.1 = "access_group"
      then (p.1, p.2 ++ [Migration1ad8716bfc74.start_time_col,
        Migration1ad8716bfc74.end_time_col])
      else p) := by
  have hup : Migration1ad8716bfc74.upgrade s = s.map (fun p =>
      if p.1 = "access_group"
      then (p.1, p.2 ++ [Migration1ad8716bfc74.start_time_col,
        Migration1ad8716bfc74.end_time_col])
      else p) := by
    unfold Migration1ad8716bfc74.upgrade Migration1ad8716bfc74.add_column
    rw [List.map_map]
    apply List.map_congr_left
    intro p _
    by_cases hp : p.1 = "access_group" <;> simp [hp]
  refine ⟨?_, hup⟩
  rw [hup]
  unfold Migration1ad8716bfc74.downgrade Migration1ad8716bfc74.drop_column
  rw [List.map_map, List.map_map]
  have hpt : ∀ p ∈ s, (fun (q : String × List SchemaColumn) =>
        if q.1 = "access_group"
        then (q.1, q.2.filter (fun c => c.name ≠ "end_time")) else q)
      ((fun (q : String × List SchemaColumn) =>
        if q.1 = "access_group"
        then (q.1, q.2.filter (fun c => c.name ≠ "start_time")) else q)
      ((fun (q : String × List SchemaColumn) =>
        if q.1 = "access_group"
        then (q.1, q.2 ++ [Migration1ad8716bfc74.start_time_col,
          Migration1ad8716bfc74.end_time_col]) else q) p)) = p := by
    intro p hps
    obtain ⟨p1, p2⟩ := p
    by_cases hp : p1 = "access_group"
    · subst hp
      have h12 : p2.filter
          (fun a => !decide (a.name = "end_time") && !decide (a.name = "start_time"))
          = p2 :=
        List.filter_eq_self.mpr (fun c hc => by
          simp [(h ("access_group", p2) hps rfl c hc).1,
            (h ("access_group", p2) hps rfl c hc).2])
      simp [List.filter_append, h12,
        Migration1ad8716bfc74.start_time_col, Migration1ad8716bfc74.end_time_col]
    · simp [hp]
  exact (List.map_congr_left hpt).trans (List.map_id s)

/-- A two-table schema whose `access_group` table has neither a `start_time`
nor an `end_time` column. -/
def sampleSchema : Schema :=
  [("attendee", [{ name := "id", ctype := "UUID", nullable := false }]),
   ("access_group", [{ name := "id", ctype := "UUID", nullable := false }])]

/-- C7 witness: on `sampleSchema` the no-such-columns hypothesis holds and
`downgrade` after `upgrade` restores the schema. -/
theorem access_group_migration_roundtrip_witness :
    Migration1ad8716bfc74.downgrade (Migration1ad8716bfc74.upgrade sampleSchema)
      = sampleSchema :=
  (access_group_migration_roundtrip sampleSchema (by decide)).1

/-- An under-13 attendee at the convention holding a badge type outside
`ATTENDEE_BADGE`, `FRIDAY`, `SATURDAY`, `SUNDAY` (code 99 is none of the
sample codes). -/
def sampleUnder13OneDay : Mff.Attendee :=
  { age_group_has_val := true, age_group_val := 30, age_group_discount := 0,
    badge_type := 99, ribbon := [], staffing := false,
    overridden_price := none, paid := 60 }

/-- C8: `age_discount` is not total. On `sampleConfig` (where `AT_THE_CON`
holds), an under-13 attendee with a badge type outside `ATTENDEE_BADGE`,
`FRIDAY`, `SATURDAY`, `SUNDAY` leaves the local `discount` unassigned and the
method raises `UnboundLocalError` (embedded as `none`), while the same
attendee with `ATTENDEE_BADGE` gets the integer discount `-33`. -/
theorem age_discount_unbound_local :
    Mff.Attendee.age_discount sampleConfig sampleUnder13OneDay = none ∧
    Mff.Attendee.age_discount sampleConfig
        { sampleUnder13OneDay with badge_type := sampleConfig.attendee_badge }
      = some (-33) := by
  decide

/-- A non-staff-badge attendee wearing the staff ribbon. -/
def sampleStaffRibbonAttendee : Mff.Attendee :=
  { age_group_has_val := false, age_group_val := 0, age_group_discount := 0,
    badge_type := 40, ribbon := [50], staffing := false,
    overridden_price := none, paid := 60 }

/-- An unpaid staff-badge attendee wearing the volunteer ribbon. -/
def sampleStaffBadgeAttendee : Mff.Attendee :=
  { age_group_has_val := false, age_group_val := 0, age_group_discount := 0,
    badge_type := 20, ribbon := [51], staffing := false,
    overridden_price := none, paid := 60 }

/-- C9: the presave adjustment is not total. Its second `if` reads the
nonexistent attribute `ribbon_intsm`, so for the staff-ribbon attendee whose
badge type is not `STAFF_BADGE` the method raises `AttributeError` (embedded
as `none`) instead of setting `staffing`; for a `STAFF_BADGE` attendee the
left disjunct short-circuits and the method completes, removing the
volunteer ribbon, setting `staffing`, and marking the badge need-not-pay. -/
theorem staffing_adjustments_attribute_error :
    Mff.Attendee.staffing_badge_and_ribbon_adjustments sampleConfig
      sampleStaffRibbonAttendee = none ∧
    Mff.Attendee.staffing_badge_and_ribbon_adjustments sampleConfig
        sampleStaffBadgeAttendee
      = some { sampleStaffBadgeAttendee with
               ribbon := [], staffing := true, paid := 62 } := by
  decide

/-- C10: with `MAX_DEALERS` unset (zero), `dealer_max_badges` is the minimum
of three times the ceiling of the group's table count and 12, hence at most
12; with `MAX_DEALERS` set non-zero, it is `MAX_DEALERS` regardless of the
table count. -/
theorem dealer_max_badges_spec (cfg : Config) (g : Mff.Group) :
    (cfg.max_dealers = 0 →
      Mff.Group.dealer_max_badges cfg g = min (3 * ⌈g.tables⌉) 12 ∧
      Mff.Group.dealer_max_badges cfg g ≤ 12) ∧
    (cfg.max_dealers ≠ 0 →
      Mff.Group.dealer_max_badges cfg g = cfg.max_dealers) := by
  constructor
  · intro h
    constructor
    · simp [Mff.Group.dealer_max_badges, h, mul_comm]
    · simp only [Mff.Group.dealer_max_badges, h, ne_eq, not_true_eq_false,
        if_false]
      exact min_le_right _ _
  · intro h
    simp [Mff.Group.dealer_max_badges, h]

/-- The configuration with `MAX_DEALERS` set to 50. -/
def sampleConfigDealers : Config :=
  { sampleConfig with max_dealers := 50 }

/-- A dealer group with three tables. -/
def sampleGroup : Mff.Group :=
  { tables := 3 }

/-- C10 witness: with `MAX_DEALERS` unset the three-table group's badge
maximum is at most 12, and with `MAX_DEALERS` set to 50 it is 50. -/
theorem dealer_max_badges_spec_witness :
    sampleConfig.max_dealers = 0 ∧
    Mff.Group.dealer_max_badges sampleConfig sampleGroup ≤ 12 ∧
    sampleConfigDealers.max_dealers ≠ 0 ∧
    Mff.Group.dealer_max_badges sampleConfigDealers sampleGroup = 50 :=
  ⟨rfl, ((dealer_max_badges_spec sampleConfig sampleGroup).1 rfl).2,
    by decide,
    (dealer_max_badges_spec sampleConfigDealers sampleGroup).2 (by decide)⟩

end Rams
